import Mathlib

/-!
Shallow embedding of the pump-fun bonding-curve program
(`programs/pump_fun/src/state.rs` and `programs/pump_fun/src/lib.rs`).

Machine integers are modelled as `Nat` carrying the source's width as an
explicit invariant (`< 2^64` for `u64` fields); every `checked_*` operation
of the source becomes an `Option Nat` that is `none` exactly when the Rust
operation would return `None`, the `ok_or(...)? ` pattern becomes a `match`
that maps `none` to the source's error code, and each `as u64` narrowing cast
becomes an explicit `% 2^64`.  Fallible instruction handlers return `Except`.
-/

namespace PumpFun

/-- Size bound of a `u64` value. -/
def U64SIZE : Nat := 2 ^ 64

/-- Size bound of a `u128` value. -/
def U128SIZE : Nat := 2 ^ 128

/-- Rust `u64::checked_add`. -/
def checkedAdd64 (a b : Nat) : Option Nat :=
  if a + b < U64SIZE then some (a + b) else none

/-- Rust `u64::checked_mul`. -/
def checkedMul64 (a b : Nat) : Option Nat :=
  if a * b < U64SIZE then some (a * b) else none

/-- Rust `u128::checked_add`. -/
def checkedAdd128 (a b : Nat) : Option Nat :=
  if a + b < U128SIZE then some (a + b) else none

/-- Rust `u128::checked_mul`. -/
def checkedMul128 (a b : Nat) : Option Nat :=
  if a * b < U128SIZE then some (a * b) else none

/-- Rust `checked_sub` (same behaviour at every width): `none` on underflow. -/
def checkedSub (a b : Nat) : Option Nat :=
  if b ≤ a then some (a - b) else none

/-- Rust `checked_div` (same behaviour at every width): `none` on division by
zero, floor division otherwise. -/
def checkedDiv (a b : Nat) : Option Nat :=
  if b = 0 then none else some (a / b)

/-- Rust `as u64` narrowing cast from a wider value. -/
def castU64 (a : Nat) : Nat := a % U64SIZE

deriving instance DecidableEq for Except

/-- Error codes of `errors.rs` that the modelled instruction paths can
produce. -/
inductive PumpFunError where
  | MathOverflow
  | MathUnderflow
  | SlippageExceeded
  | AlreadyGraduated
  | NotReadyForGraduation
  | ProtocolPaused
  | ZeroAmount
  | NoLiquidity
  | TradeTooSmall
  | TradeExceedsReserves
  deriving DecidableEq

/-- The fields of `GlobalConfig` (state.rs) consulted and mutated by the
trading paths.  `authority`, `fee_recipient`, `total_tokens_launched`, `bump`
and the reserved padding play no role in the claims. -/
structure GlobalConfig where
  platform_fee_bps : Nat
  paused : Bool
  total_volume_sol : Nat
  deriving DecidableEq

/-- The fields of `BondingCurve` (state.rs) read and written by the
buy / sell / graduate paths.  `mint`, `creator`, `bump` and the reserved
padding play no role in the claims. -/
structure BondingCurve where
  virtual_sol_reserves : Nat
  virtual_token_reserves : Nat
  real_sol_reserves : Nat
  real_token_reserves : Nat
  tokens_sold : Nat
  graduated : Bool
  created_at : Int
  graduated_at : Int
  deriving DecidableEq

/-- All `u64` fields of a curve are in range. -/
def BondingCurve.WF (c : BondingCurve) : Prop :=
  c.virtual_sol_reserves < U64SIZE ∧ c.virtual_token_reserves < U64SIZE ∧
  c.real_sol_reserves < U64SIZE ∧ c.real_token_reserves < U64SIZE ∧
  c.tokens_sold < U64SIZE

instance (c : BondingCurve) : Decidable c.WF := by
  unfold BondingCurve.WF; infer_instance

/-- Minimum trade amount in lamports (`constants.rs`). -/
def MIN_TRADE_AMOUNT : Nat := 1000000

/-- Graduation threshold: 85 SOL in lamports (`GRADUATION_SOL_THRESHOLD`). -/
def GRADUATION_SOL_THRESHOLD : Nat := 85 * 1000000000

/-- 85% of raised SOL goes to Raydium liquidity (`constants.rs`). -/
def GRADUATION_LIQUIDITY_PERCENTAGE : Nat := 85

/-- 10% of raised SOL goes to the creator (`constants.rs`). -/
def CREATOR_GRADUATION_REWARD_PERCENTAGE : Nat := 10

/-- 5% of raised SOL goes to the platform (`constants.rs`). -/
def PLATFORM_GRADUATION_FEE_PERCENTAGE : Nat := 5

/-- `BondingCurve::get_current_price` (state.rs): price in lamports per token,
scaled by `10^9`, computed in `u128` and narrowed back with `as u64`.
The `checked_mul`/`checked_div` `unwrap`s cannot fire for in-range fields
(the `u128` product of a `u64` by `10^9` never overflows, and the zero divisor
is screened first), so the function is total here. -/
def get_current_price (c : BondingCurve) : Nat :=
  if c.virtual_token_reserves = 0 then 0
  else castU64 (c.virtual_sol_reserves * 1000000000 / c.virtual_token_reserves)

/-- `BondingCurve::get_market_cap` (state.rs). -/
def get_market_cap (c : BondingCurve) (total_supply : Nat) : Nat :=
  castU64 (get_current_price c * total_supply / 1000000000)

/-- `BondingCurve::calculate_tokens_out` (state.rs): constant-product buy
quote with `u128` intermediates, clamped to the real token reserve, then
narrowed with `as u64`. -/
def calculate_tokens_out (c : BondingCurve) (sol_amount : Nat) :
    Except PumpFunError Nat :=
  if sol_amount = 0 then Except.ok 0 else
  match checkedMul128 c.virtual_sol_reserves c.virtual_token_reserves with
  | none => Except.error PumpFunError.MathOverflow
  | some k =>
  match checkedAdd128 c.virtual_sol_reserves sol_amount with
  | none => Except.error PumpFunError.MathOverflow
  | some new_virtual_sol =>
  match checkedDiv k new_virtual_sol with
  | none => Except.error PumpFunError.MathOverflow
  | some new_virtual_tokens =>
  match checkedSub c.virtual_token_reserves new_virtual_tokens with
  | none => Except.error PumpFunError.MathOverflow
  | some tokens_out =>
    Except.ok (castU64 (min tokens_out c.real_token_reserves))

/-- `BondingCurve::calculate_sol_out` (state.rs): constant-product sell quote
with `u128` intermediates, clamped to the real SOL reserve, then narrowed
with `as u64`. -/
def calculate_sol_out (c : BondingCurve) (token_amount : Nat) :
    Except PumpFunError Nat :=
  if token_amount = 0 then Except.ok 0 else
  match checkedMul128 c.virtual_sol_reserves c.virtual_token_reserves with
  | none => Except.error PumpFunError.MathOverflow
  | some k =>
  match checkedAdd128 c.virtual_token_reserves token_amount with
  | none => Except.error PumpFunError.MathOverflow
  | some new_virtual_tokens =>
  match checkedDiv k new_virtual_tokens with
  | none => Except.error PumpFunError.MathOverflow
  | some new_virtual_sol =>
  match checkedSub c.virtual_sol_reserves new_virtual_sol with
  | none => Except.error PumpFunError.MathOverflow
  | some sol_out =>
    Except.ok (castU64 (min sol_out c.real_sol_reserves))

/-- Result record of a successful buy: updated config and curve, the platform
fee charged, and the token amount delivered (the data of the source's
`TradeEvent` that later claims consult). -/
structure BuyOutcome where
  config : GlobalConfig
  curve : BondingCurve
  platform_fee : Nat
  tokens_out : Nat
  deriving DecidableEq

/-- `pump_fun::buy` (lib.rs): guard chain, u64-checked fee, quote, slippage
and reserve checks, then the field-by-field state update in source order.
The SOL / SPL transfers are the host ledger's effects and carry no curve
state, so they do not appear. -/
def buy (config : GlobalConfig) (c : BondingCurve)
    (sol_amount min_tokens_out : Nat) : Except PumpFunError BuyOutcome :=
  if config.paused then Except.error PumpFunError.ProtocolPaused else
  if sol_amount < MIN_TRADE_AMOUNT then Except.error PumpFunError.TradeTooSmall else
  if c.graduated then Except.error PumpFunError.AlreadyGraduated else
  if c.real_token_reserves = 0 then Except.error PumpFunError.NoLiquidity else
  match checkedMul64 sol_amount config.platform_fee_bps with
  | none => Except.error PumpFunError.MathOverflow
  | some feeNum =>
  match checkedDiv feeNum 10000 with
  | none => Except.error PumpFunError.MathOverflow
  | some platform_fee =>
  match checkedSub sol_amount platform_fee with
  | none => Except.error PumpFunError.MathUnderflow
  | some sol_after_fee =>
  match calculate_tokens_out c sol_after_fee with
  | Except.error e => Except.error e
  | Except.ok tokens_out =>
  if tokens_out = 0 then Except.error PumpFunError.ZeroAmount else
  if tokens_out < min_tokens_out then Except.error PumpFunError.SlippageExceeded else
  if ¬ tokens_out ≤ c.real_token_reserves then
    Except.error PumpFunError.TradeExceedsReserves else
  match checkedAdd64 c.virtual_sol_reserves sol_after_fee with
  | none => Except.error PumpFunError.MathOverflow
  | some vsol =>
  match checkedSub c.virtual_token_reserves tokens_out with
  | none => Except.error PumpFunError.MathUnderflow
  | some vtok =>
  match checkedAdd64 c.real_sol_reserves sol_after_fee with
  | none => Except.error PumpFunError.MathOverflow
  | some rsol =>
  match checkedSub c.real_token_reserves tokens_out with
  | none => Except.error PumpFunError.MathUnderflow
  | some rtok =>
  match checkedAdd64 c.tokens_sold tokens_out with
  | none => Except.error PumpFunError.MathOverflow
  | some sold =>
  match checkedAdd64 config.total_volume_sol sol_amount with
  | none => Except.error PumpFunError.MathOverflow
  | some vol =>
  Except.ok
    { config := { config with total_volume_sol := vol }
      curve := { c with
        virtual_sol_reserves := vsol
        virtual_token_reserves := vtok
        real_sol_reserves := rsol
        real_token_reserves := rtok
        tokens_sold := sold }
      platform_fee := platform_fee
      tokens_out := tokens_out }

/-- Result record of a successful sell: updated config and curve, the platform
fee, the gross quote `sol_out_before_fee` and the net payout `sol_out`. -/
structure SellOutcome where
  config : GlobalConfig
  curve : BondingCurve
  platform_fee : Nat
  sol_out_before_fee : Nat
  sol_out : Nat
  deriving DecidableEq

/-- `pump_fun::sell` (lib.rs): guard chain, quote, u64-checked fee taken from
the output side, slippage and reserve checks, then the state update in source
order.  Vault lamport balances belong to the host ledger and do not appear. -/
def sell (config : GlobalConfig) (c : BondingCurve)
    (token_amount min_sol_out : Nat) : Except PumpFunError SellOutcome :=
  if config.paused then Except.error PumpFunError.ProtocolPaused else
  if token_amount = 0 then Except.error PumpFunError.ZeroAmount else
  if c.graduated then Except.error PumpFunError.AlreadyGraduated else
  if c.real_sol_reserves = 0 then Except.error PumpFunError.NoLiquidity else
  match calculate_sol_out c token_amount with
  | Except.error e => Except.error e
  | Except.ok sol_out_before_fee =>
  if sol_out_before_fee = 0 then Except.error PumpFunError.ZeroAmount else
  match checkedMul64 sol_out_before_fee config.platform_fee_bps with
  | none => Except.error PumpFunError.MathOverflow
  | some feeNum =>
  match checkedDiv feeNum 10000 with
  | none => Except.error PumpFunError.MathOverflow
  | some platform_fee =>
  match checkedSub sol_out_before_fee platform_fee with
  | none => Except.error PumpFunError.MathUnderflow
  | some sol_out =>
  if sol_out < min_sol_out then Except.error PumpFunError.SlippageExceeded else
  if ¬ sol_out_before_fee ≤ c.real_sol_reserves then
    Except.error PumpFunError.TradeExceedsReserves else
  match checkedSub c.virtual_sol_reserves sol_out_before_fee with
  | none => Except.error PumpFunError.MathUnderflow
  | some vsol =>
  match checkedAdd64 c.virtual_token_reserves token_amount with
  | none => Except.error PumpFunError.MathOverflow
  | some vtok =>
  match checkedSub c.real_sol_reserves sol_out_before_fee with
  | none => Except.error PumpFunError.MathUnderflow
  | some rsol =>
  match checkedAdd64 c.real_token_reserves token_amount with
  | none => Except.error PumpFunError.MathOverflow
  | some rtok =>
  match checkedSub c.tokens_sold token_amount with
  | none => Except.error PumpFunError.MathUnderflow
  | some sold =>
  match checkedAdd64 config.total_volume_sol sol_out_before_fee with
  | none => Except.error PumpFunError.MathOverflow
  | some vol =>
  Except.ok
    { config := { config with total_volume_sol := vol }
      curve := { c with
        virtual_sol_reserves := vsol
        virtual_token_reserves := vtok
        real_sol_reserves := rsol
        real_token_reserves := rtok
        tokens_sold := sold }
      platform_fee := platform_fee
      sol_out_before_fee := sol_out_before_fee
      sol_out := sol_out }

/-- Result record of a successful graduation: the terminal curve and the
four amounts the source computes and hands off. -/
structure GraduateOutcome where
  curve : BondingCurve
  liquidity_sol : Nat
  creator_reward : Nat
  platform_fee : Nat
  liquidity_tokens : Nat
  deriving DecidableEq

/-- `pump_fun::graduate` (lib.rs): guard chain, the 85/10/5 split of
`real_sol_reserves` via u64-checked arithmetic, hand-off of all of
`real_token_reserves`, then the terminal state flip.  The timestamp is the
caller-supplied clock value; vault lamport movements belong to the host
ledger. -/
def graduate (config : GlobalConfig) (c : BondingCurve) (now : Int) :
    Except PumpFunError GraduateOutcome :=
  if config.paused then Except.error PumpFunError.ProtocolPaused else
  if c.graduated then Except.error PumpFunError.AlreadyGraduated else
  if ¬ GRADUATION_SOL_THRESHOLD ≤ c.real_sol_reserves then
    Except.error PumpFunError.NotReadyForGraduation else
  match checkedMul64 c.real_sol_reserves GRADUATION_LIQUIDITY_PERCENTAGE with
  | none => Except.error PumpFunError.MathOverflow
  | some ln =>
  match checkedDiv ln 100 with
  | none => Except.error PumpFunError.MathOverflow
  | some liquidity_sol =>
  match checkedMul64 c.real_sol_reserves CREATOR_GRADUATION_REWARD_PERCENTAGE with
  | none => Except.error PumpFunError.MathOverflow
  | some cn =>
  match checkedDiv cn 100 with
  | none => Except.error PumpFunError.MathOverflow
  | some creator_reward =>
  match checkedMul64 c.real_sol_reserves PLATFORM_GRADUATION_FEE_PERCENTAGE with
  | none => Except.error PumpFunError.MathOverflow
  | some pn =>
  match checkedDiv pn 100 with
  | none => Except.error PumpFunError.MathOverflow
  | some platform_fee =>
  Except.ok
    { curve := { c with
        graduated := true
        graduated_at := now
        real_sol_reserves := 0
        real_token_reserves := 0 }
      liquidity_sol := liquidity_sol
      creator_reward := creator_reward
      platform_fee := platform_fee
      liquidity_tokens := c.real_token_reserves }

/-- Modelled from the spec: the host runtime (the Solana transaction layer,
outside `src/`) commits an instruction's account writes only when the
instruction returns `Ok`; on any `Err` the whole transaction is rolled back,
so the observable post-call state of a failed `buy` is the pre-call state. -/
def observeBuy (config : GlobalConfig) (c : BondingCurve)
    (sol_amount min_tokens_out : Nat) : GlobalConfig × BondingCurve :=
  match buy config c sol_amount min_tokens_out with
  | Except.ok r => (r.config, r.curve)
  | Except.error _ => (config, c)

/-- Modelled from the spec: transactional observation of `sell`, as for
`observeBuy`. -/
def observeSell (config : GlobalConfig) (c : BondingCurve)
    (token_amount min_sol_out : Nat) : GlobalConfig × BondingCurve :=
  match sell config c token_amount min_sol_out with
  | Except.ok r => (r.config, r.curve)
  | Except.error _ => (config, c)

/-- Modelled from the spec: transactional observation of `graduate`, as for
`observeBuy`. -/
def observeGraduate (config : GlobalConfig) (c : BondingCurve) (now : Int) :
    BondingCurve :=
  match graduate config c now with
  | Except.ok r => r.curve
  | Except.error _ => c

/-! Concrete instances used by counterexamples and witnesses. -/

/-- A zero-fee, unpaused configuration. -/
def cfgZeroFee : GlobalConfig :=
  { platform_fee_bps := 0, paused := false, total_volume_sol := 0 }

/-- The default 1% fee configuration (`DEFAULT_PLATFORM_FEE_BPS`). -/
def cfgOnePct : GlobalConfig :=
  { platform_fee_bps := 100, paused := false, total_volume_sol := 0 }

/-- A paused configuration. -/
def cfgPaused : GlobalConfig :=
  { platform_fee_bps := 100, paused := true, total_volume_sol := 0 }

/-- A curve whose real token reserve is nearly depleted, so a buy quote is
clamped. -/
def curveClamp : BondingCurve :=
  { virtual_sol_reserves := 1000000, virtual_token_reserves := 1000000,
    real_sol_reserves := 0, real_token_reserves := 10, tokens_sold := 0,
    graduated := false, created_at := 0, graduated_at := 0 }

/-- A balanced curve holding some previously deposited SOL, used for the
round-trip counterexample. -/
def curveRound : BondingCurve :=
  { virtual_sol_reserves := 100000000, virtual_token_reserves := 100000000,
    real_sol_reserves := 10, real_token_reserves := 100000000,
    tokens_sold := 10000000, graduated := false, created_at := 0,
    graduated_at := 0 }

/-- A curve whose scaled price exceeds `u64`, exposing the truncating
`as u64` cast in `get_current_price`. -/
def curvePrice : BondingCurve :=
  { virtual_sol_reserves := 2 ^ 60, virtual_token_reserves := 1,
    real_sol_reserves := 0, real_token_reserves := 0, tokens_sold := 0,
    graduated := false, created_at := 0, graduated_at := 0 }

/-- A fresh curve with the default initial reserves of `constants.rs`. -/
def curveStart : BondingCurve :=
  { virtual_sol_reserves := 30 * 1000000000,
    virtual_token_reserves := 1073000000 * 1000000,
    real_sol_reserves := 0, real_token_reserves := 793000000 * 1000000,
    tokens_sold := 0, graduated := false, created_at := 0, graduated_at := 0 }

/-- A curve at the graduation threshold. -/
def curveAtThreshold : BondingCurve :=
  { virtual_sol_reserves := 115 * 1000000000,
    virtual_token_reserves := 280000000 * 1000000,
    real_sol_reserves := 85 * 1000000000,
    real_token_reserves := 1000000 * 1000000, tokens_sold := 792000000 * 1000000,
    graduated := false, created_at := 0, graduated_at := 0 }

/-- A curve one lamport below the graduation threshold. -/
def curveBelowThreshold : BondingCurve :=
  { curveAtThreshold with real_sol_reserves := 84999999999 }

/-- A graduated (terminal) curve, as `graduate` leaves it. -/
def curveDone : BondingCurve :=
  { virtual_sol_reserves := 115 * 1000000000,
    virtual_token_reserves := 280000000 * 1000000,
    real_sol_reserves := 0, real_token_reserves := 0,
    tokens_sold := 792000000 * 1000000, graduated := true, created_at := 0,
    graduated_at := 7 }

/-- A non-graduated curve whose real token reserve is exhausted. -/
def curveEmpty : BondingCurve :=
  { virtual_sol_reserves := 1000000000, virtual_token_reserves := 1000000,
    real_sol_reserves := 500000000, real_token_reserves := 0,
    tokens_sold := 793000000 * 1000000, graduated := false, created_at := 0,
    graduated_at := 0 }

/-- A degenerate curve with zero virtual token reserve, whose buy quote is
zero. -/
def curveZeroQuote : BondingCurve :=
  { virtual_sol_reserves := 1000000000, virtual_token_reserves := 0,
    real_sol_reserves := 0, real_token_reserves := 5, tokens_sold := 0,
    graduated := false, created_at := 0, graduated_at := 0 }

/-- The outcome of `buy cfgOnePct curveStart 1000000000 0` (the spec's
scenario trade). -/
def outcomeStart : BuyOutcome :=
  { config :=
      { platform_fee_bps := 100, paused := false,
        total_volume_sol := 1000000000 },
    curve :=
      { virtual_sol_reserves := 30990000000,
        virtual_token_reserves := 1038722168441432,
        real_sol_reserves := 990000000, real_token_reserves := 758722168441432,
        tokens_sold := 34277831558568, graduated := false, created_at := 0,
        graduated_at := 0 },
    platform_fee := 10000000,
    tokens_out := 34277831558568 }

/-- The outcome of `buy cfgZeroFee curveRound 10000000 0`. -/
def outRound1 : BuyOutcome :=
  { config :=
      { platform_fee_bps := 0, paused := false,
        total_volume_sol := 10000000 },
    curve :=
      { virtual_sol_reserves := 110000000,
        virtual_token_reserves := 90909090, real_sol_reserves := 10000010,
        real_token_reserves := 90909090, tokens_sold := 19090910,
        graduated := false, created_at := 0, graduated_at := 0 },
    platform_fee := 0,
    tokens_out := 9090910 }

/-- The outcome of selling the `outRound1` tokens straight back. -/
def outRound2 : SellOutcome :=
  { config :=
      { platform_fee_bps := 0, paused := false,
        total_volume_sol := 20000001 },
    curve :=
      { virtual_sol_reserves := 99999999,
        virtual_token_reserves := 100000000, real_sol_reserves := 9,
        real_token_reserves := 100000000, tokens_sold := 10000000,
        graduated := false, created_at := 0, graduated_at := 0 },
    platform_fee := 0,
    sol_out_before_fee := 10000001,
    sol_out := 10000001 }

/-- The outcome of `graduate cfgOnePct curveAtThreshold 7`. -/
def gradOutcome : GraduateOutcome :=
  { curve := curveDone,
    liquidity_sol := 72250000000,
    creator_reward := 8500000000,
    platform_fee := 4250000000,
    liquidity_tokens := 1000000000000 }

end PumpFun

namespace PumpFun

/-! Basic facts about the checked operations. -/

theorem checkedMul64_some {a b x : Nat} (h : checkedMul64 a b = some x) :
    x = a * b ∧ a * b < U64SIZE := by
  unfold checkedMul64 at h; split at h <;> simp_all

theorem checkedAdd64_some {a b x : Nat} (h : checkedAdd64 a b = some x) :
    x = a + b ∧ a + b < U64SIZE := by
  unfold checkedAdd64 at h; split at h <;> simp_all

theorem checkedSub_some {a b x : Nat} (h : checkedSub a b = some x) :
    x = a - b ∧ b ≤ a := by
  unfold checkedSub at h; split at h <;> simp_all

theorem checkedDiv_some {a b x : Nat} (h : checkedDiv a b = some x) :
    x = a / b ∧ b ≠ 0 := by
  unfold checkedDiv at h; split at h <;> simp_all

/-- Division of a scaled product by a divisor at least the scaling factor is
bounded by the other factor. -/
theorem div_mul_le (x y z : Nat) (h : x ≤ z) : x * y / z ≤ y := by
  rcases Nat.eq_zero_or_pos z with hz | hz
  · subst hz
    have : x = 0 := Nat.le_zero.mp h
    simp [this]
  · calc x * y / z ≤ z * y / z := Nat.div_le_div_right (Nat.mul_le_mul_right y h)
    _ = y := Nat.mul_div_cancel_left y hz

/-! Characterizations of the two quote functions. -/

/-- Total characterization of the buy quote. -/
theorem calculate_tokens_out_total (c : BondingCurve) (s : Nat) :
    calculate_tokens_out c s =
      if s = 0 then Except.ok 0
      else if c.virtual_sol_reserves * c.virtual_token_reserves < U128SIZE ∧
              c.virtual_sol_reserves + s < U128SIZE then
        Except.ok (castU64 (min (c.virtual_token_reserves -
          c.virtual_sol_reserves * c.virtual_token_reserves /
            (c.virtual_sol_reserves + s)) c.real_token_reserves))
      else Except.error PumpFunError.MathOverflow := by
  by_cases hs : s = 0
  · simp [calculate_tokens_out, hs]
  · have hdivle : c.virtual_sol_reserves * c.virtual_token_reserves /
        (c.virtual_sol_reserves + s) ≤ c.virtual_token_reserves :=
      div_mul_le _ _ _ (Nat.le_add_right _ _)
    by_cases hmul : c.virtual_sol_reserves * c.virtual_token_reserves < U128SIZE
    · by_cases hadd : c.virtual_sol_reserves + s < U128SIZE
      · simp [calculate_tokens_out, hs, checkedMul128, hmul, checkedAdd128, hadd,
              checkedDiv, checkedSub, hdivle, show c.virtual_sol_reserves + s ≠ 0 by omega]
      · simp [calculate_tokens_out, hs, checkedMul128, hmul, checkedAdd128, hadd]
    · simp [calculate_tokens_out, hs, checkedMul128, hmul]

/-- Total characterization of the sell quote. -/
theorem calculate_sol_out_total (c : BondingCurve) (a : Nat) :
    calculate_sol_out c a =
      if a = 0 then Except.ok 0
      else if c.virtual_sol_reserves * c.virtual_token_reserves < U128SIZE ∧
              c.virtual_token_reserves + a < U128SIZE then
        Except.ok (castU64 (min (c.virtual_sol_reserves -
          c.virtual_sol_reserves * c.virtual_token_reserves /
            (c.virtual_token_reserves + a)) c.real_sol_reserves))
      else Except.error PumpFunError.MathOverflow := by
  by_cases ha : a = 0
  · simp [calculate_sol_out, ha]
  · have hdivle : c.virtual_sol_reserves * c.virtual_token_reserves /
        (c.virtual_token_reserves + a) ≤ c.virtual_sol_reserves := by
      have := div_mul_le c.virtual_token_reserves c.virtual_sol_reserves
        (c.virtual_token_reserves + a) (Nat.le_add_right _ _)
      calc c.virtual_sol_reserves * c.virtual_token_reserves /
            (c.virtual_token_reserves + a)
          = c.virtual_token_reserves * c.virtual_sol_reserves /
            (c.virtual_token_reserves + a) := by rw [Nat.mul_comm]
        _ ≤ c.virtual_sol_reserves := this
    by_cases hmul : c.virtual_sol_reserves * c.virtual_token_reserves < U128SIZE
    · by_cases hadd : c.virtual_token_reserves + a < U128SIZE
      · simp [calculate_sol_out, ha, checkedMul128, hmul, checkedAdd128, hadd,
              checkedDiv, checkedSub, hdivle, show c.virtual_token_reserves + a ≠ 0 by omega]
      · simp [calculate_sol_out, ha, checkedMul128, hmul, checkedAdd128, hadd]
    · simp [calculate_sol_out, ha, checkedMul128, hmul]

/-- A buy quote never exceeds the real token reserve. -/
theorem calculate_tokens_out_le_real {c : BondingCurve} {s t : Nat}
    (h : calculate_tokens_out c s = Except.ok t) : t ≤ c.real_token_reserves := by
  rw [calculate_tokens_out_total] at h
  split at h
  · cases h; exact Nat.zero_le _
  · split at h
    · cases h
      calc castU64 _ ≤ _ := Nat.mod_le _ _
        _ ≤ c.real_token_reserves := min_le_right _ _
    · exact absurd h (by simp)

/-- A sell quote never exceeds the real SOL reserve. -/
theorem calculate_sol_out_le_real {c : BondingCurve} {a u : Nat}
    (h : calculate_sol_out c a = Except.ok u) : u ≤ c.real_sol_reserves := by
  rw [calculate_sol_out_total] at h
  split at h
  · cases h; exact Nat.zero_le _
  · split at h
    · cases h
      calc castU64 _ ≤ _ := Nat.mod_le _ _
        _ ≤ c.real_sol_reserves := min_le_right _ _
    · exact absurd h (by simp)

/-- A positive-input buy quote never exceeds the constant-product formula
amount. -/
theorem calculate_tokens_out_le_formula {c : BondingCurve} {s t : Nat}
    (hs : s ≠ 0) (h : calculate_tokens_out c s = Except.ok t) :
    t ≤ c.virtual_token_reserves -
      c.virtual_sol_reserves * c.virtual_token_reserves /
        (c.virtual_sol_reserves + s) := by
  rw [calculate_tokens_out_total] at h
  rw [if_neg hs] at h
  split at h
  · cases h
    calc castU64 _ ≤ _ := Nat.mod_le _ _
      _ ≤ _ := min_le_left _ _
  · exact absurd h (by simp)

/-- A positive-input sell quote never exceeds the constant-product formula
amount. -/
theorem calculate_sol_out_le_formula {c : BondingCurve} {a u : Nat}
    (ha : a ≠ 0) (h : calculate_sol_out c a = Except.ok u) :
    u ≤ c.virtual_sol_reserves -
      c.virtual_sol_reserves * c.virtual_token_reserves /
        (c.virtual_token_reserves + a) := by
  rw [calculate_sol_out_total] at h
  rw [if_neg ha] at h
  split at h
  · cases h
    calc castU64 _ ≤ _ := Nat.mod_le _ _
      _ ≤ _ := min_le_left _ _
  · exact absurd h (by simp)

end PumpFun

namespace PumpFun

/-! Inversion lemmas for the two trade handlers. -/


theorem buy_ok_elim {cfg : GlobalConfig} {c : BondingCurve} {g m : Nat}
    {r : BuyOutcome} (h : buy cfg c g m = Except.ok r) :
    cfg.paused = false ∧ MIN_TRADE_AMOUNT ≤ g ∧ c.graduated = false ∧
    0 < c.real_token_reserves ∧
    g * cfg.platform_fee_bps < U64SIZE ∧
    r.platform_fee = g * cfg.platform_fee_bps / 10000 ∧
    r.platform_fee ≤ g ∧
    calculate_tokens_out c (g - r.platform_fee) = Except.ok r.tokens_out ∧
    0 < r.tokens_out ∧ m ≤ r.tokens_out ∧ r.tokens_out ≤ c.real_token_reserves ∧
    r.curve.virtual_sol_reserves = c.virtual_sol_reserves + (g - r.platform_fee) ∧
    r.curve.virtual_token_reserves = c.virtual_token_reserves - r.tokens_out ∧
    r.curve.real_sol_reserves = c.real_sol_reserves + (g - r.platform_fee) ∧
    r.curve.real_token_reserves = c.real_token_reserves - r.tokens_out ∧
    r.curve.tokens_sold = c.tokens_sold + r.tokens_out ∧
    r.curve.graduated = false ∧
    r.curve.virtual_sol_reserves < U64SIZE ∧
    r.curve.created_at = c.created_at ∧ r.curve.graduated_at = c.graduated_at ∧
    r.config.platform_fee_bps = cfg.platform_fee_bps ∧
    r.config.paused = cfg.paused ∧
    r.config.total_volume_sol = cfg.total_volume_sol + g := by
  unfold buy at h
  split at h
  · exact absurd h (by simp)
  rename_i hp1
  split at h
  · exact absurd h (by simp)
  rename_i hp2
  split at h
  · exact absurd h (by simp)
  rename_i hp3
  split at h
  · exact absurd h (by simp)
  rename_i hp4
  split at h
  · exact absurd h (by simp)
  rename_i feeNum hfn
  split at h
  · exact absurd h (by simp)
  rename_i fee hfee
  split at h
  · exact absurd h (by simp)
  rename_i net hnet
  split at h
  · exact absurd h (by simp)
  rename_i tout hq
  split at h
  · exact absurd h (by simp)
  rename_i htz
  split at h
  · exact absurd h (by simp)
  rename_i hslip
  split at h
  · exact absurd h (by simp)
  rename_i hres
  split at h
  · exact absurd h (by simp)
  rename_i vsol hvsol
  split at h
  · exact absurd h (by simp)
  rename_i vtok hvtok
  split at h
  · exact absurd h (by simp)
  rename_i rsol hrsol
  split at h
  · exact absurd h (by simp)
  rename_i rtok hrtok2
  split at h
  · exact absurd h (by simp)
  rename_i sold hsold
  split at h
  · exact absurd h (by simp)
  rename_i vol hvol
  obtain ⟨h1, h2⟩ := checkedMul64_some hfn
  obtain ⟨h3, h4⟩ := checkedDiv_some hfee
  obtain ⟨h5, h6⟩ := checkedSub_some hnet
  obtain ⟨h7, h8⟩ := checkedAdd64_some hvsol
  obtain ⟨h9, h10⟩ := checkedSub_some hvtok
  obtain ⟨h11, h12⟩ := checkedAdd64_some hrsol
  obtain ⟨h13, h14⟩ := checkedSub_some hrtok2
  obtain ⟨h15, h16⟩ := checkedAdd64_some hsold
  obtain ⟨h17, h18⟩ := checkedAdd64_some hvol
  injection h with h
  subst h
  subst h1 h3 h5 h7 h9 h11 h13 h15 h17
  dsimp only
  refine ⟨by simpa using hp1, by omega, by simpa using hp3, by omega, h2,
    rfl, by omega, by simpa using hq, by omega, by omega, by omega,
    rfl, rfl, rfl, rfl, rfl, by simpa using hp3, by simpa using h8,
    rfl, rfl, rfl, rfl, rfl⟩





theorem sell_ok_elim {cfg : GlobalConfig} {c : BondingCurve} {a m : Nat}
    {r : SellOutcome} (h : sell cfg c a m = Except.ok r) :
    cfg.paused = false ∧ 0 < a ∧ c.graduated = false ∧
    0 < c.real_sol_reserves ∧
    calculate_sol_out c a = Except.ok r.sol_out_before_fee ∧
    0 < r.sol_out_before_fee ∧
    r.sol_out_before_fee * cfg.platform_fee_bps < U64SIZE ∧
    r.platform_fee = r.sol_out_before_fee * cfg.platform_fee_bps / 10000 ∧
    r.platform_fee ≤ r.sol_out_before_fee ∧
    r.sol_out = r.sol_out_before_fee - r.platform_fee ∧
    m ≤ r.sol_out ∧ r.sol_out_before_fee ≤ c.real_sol_reserves ∧
    r.sol_out_before_fee ≤ c.virtual_sol_reserves ∧
    a ≤ c.tokens_sold ∧
    r.curve.virtual_sol_reserves = c.virtual_sol_reserves - r.sol_out_before_fee ∧
    r.curve.virtual_token_reserves = c.virtual_token_reserves + a ∧
    r.curve.real_sol_reserves = c.real_sol_reserves - r.sol_out_before_fee ∧
    r.curve.real_token_reserves = c.real_token_reserves + a ∧
    r.curve.tokens_sold = c.tokens_sold - a ∧
    r.curve.graduated = false ∧
    r.curve.virtual_token_reserves < U64SIZE ∧
    r.curve.created_at = c.created_at ∧ r.curve.graduated_at = c.graduated_at ∧
    r.config.platform_fee_bps = cfg.platform_fee_bps ∧
    r.config.paused = cfg.paused ∧
    r.config.total_volume_sol = cfg.total_volume_sol + r.sol_out_before_fee := by
  unfold sell at h
  split at h
  · exact absurd h (by simp)
  rename_i hp1
  split at h
  · exact absurd h (by simp)
  rename_i hp2
  split at h
  · exact absurd h (by simp)
  rename_i hp3
  split at h
  · exact absurd h (by simp)
  rename_i hp4
  split at h
  · exact absurd h (by simp)
  rename_i sbf hq
  split at h
  · exact absurd h (by simp)
  rename_i hsz
  split at h
  · exact absurd h (by simp)
  rename_i feeNum hfn
  split at h
  · exact absurd h (by simp)
  rename_i fee hfee
  split at h
  · exact absurd h (by simp)
  rename_i out hout
  split at h
  · exact absurd h (by simp)
  rename_i hslip
  split at h
  · exact absurd h (by simp)
  rename_i hres
  split at h
  · exact absurd h (by simp)
  rename_i vsol hvsol
  split at h
  · exact absurd h (by simp)
  rename_i vtok hvtok
  split at h
  · exact absurd h (by simp)
  rename_i rsol hrsol
  split at h
  · exact absurd h (by simp)
  rename_i rtok hrtok2
  split at h
  · exact absurd h (by simp)
  rename_i sold hsold
  split at h
  · exact absurd h (by simp)
  rename_i vol hvol
  obtain ⟨h1, h2⟩ := checkedMul64_some hfn
  obtain ⟨h3, h4⟩ := checkedDiv_some hfee
  obtain ⟨h5, h6⟩ := checkedSub_some hout
  obtain ⟨h7, h8⟩ := checkedSub_some hvsol
  obtain ⟨h9, h10⟩ := checkedAdd64_some hvtok
  obtain ⟨h11, h12⟩ := checkedSub_some hrsol
  obtain ⟨h13, h14⟩ := checkedAdd64_some hrtok2
  obtain ⟨h15, h16⟩ := checkedSub_some hsold
  obtain ⟨h17, h18⟩ := checkedAdd64_some hvol
  injection h with h
  subst h
  subst h1 h3 h5 h7 h9 h11 h13 h15 h17
  dsimp only
  refine ⟨by simpa using hp1, by omega, by simpa using hp3, by omega,
    by simpa using hq, by omega, h2, rfl, by omega, rfl, by omega, by omega,
    h8, h16, rfl, rfl, rfl, rfl, rfl, by simpa using hp3, by simpa using h10,
    rfl, rfl, rfl, rfl, rfl⟩


end PumpFun

namespace PumpFun

theorem U64SIZE_eq : U64SIZE = 18446744073709551616 := by norm_num [U64SIZE]

theorem U128SIZE_eq : U128SIZE = 340282366920938463463374607431768211456 := by
  norm_num [U128SIZE]

/-- Products of two in-range `u64` values fit in a `u128`. -/
theorem mul_lt_u128 {a b : Nat} (ha : a < U64SIZE) (hb : b < U64SIZE) :
    a * b < U128SIZE := by
  have h : a * b < U64SIZE * U64SIZE :=
    Nat.mul_lt_mul_of_lt_of_le ha (Nat.le_of_lt hb) (by rw [U64SIZE_eq]; norm_num)
  calc a * b < U64SIZE * U64SIZE := h
    _ = U128SIZE := by rw [U64SIZE_eq, U128SIZE_eq]

/-- The buy quote fails only with an overflow code. -/
theorem calculate_tokens_out_error {c : BondingCurve} {s : Nat}
    {e : PumpFunError} (h : calculate_tokens_out c s = Except.error e) :
    e = PumpFunError.MathOverflow := by
  rw [calculate_tokens_out_total] at h
  split at h
  · exact absurd h (by simp)
  · split at h
    · exact absurd h (by simp)
    · injection h with h; exact h.symm

/-- The sell quote fails only with an overflow code. -/
theorem calculate_sol_out_error {c : BondingCurve} {a : Nat}
    {e : PumpFunError} (h : calculate_sol_out c a = Except.error e) :
    e = PumpFunError.MathOverflow := by
  rw [calculate_sol_out_total] at h
  split at h
  · exact absurd h (by simp)
  · split at h
    · exact absurd h (by simp)
    · injection h with h; exact h.symm

/-- Claim C3: for a curve with positive virtual reserves, the buy quote at
zero input is zero without invoking the formula, and at positive input it is
the constant-product formula value, floor-divided in a wide intermediate and
clamped to the real token reserve. -/
theorem calculate_tokens_out_spec (c : BondingCurve) (b : Nat) (hwf : c.WF)
    (_hvs : 0 < c.virtual_sol_reserves) (_hvt : 0 < c.virtual_token_reserves)
    (hb64 : b < U64SIZE) :
    calculate_tokens_out c 0 = Except.ok 0 ∧
    (0 < b → calculate_tokens_out c b =
      Except.ok (min (c.virtual_token_reserves -
        c.virtual_sol_reserves * c.virtual_token_reserves /
          (c.virtual_sol_reserves + b)) c.real_token_reserves)) := by
  obtain ⟨h1, h2, h3, h4, h5⟩ := hwf
  constructor
  · rw [calculate_tokens_out_total]; simp
  · intro hb
    rw [calculate_tokens_out_total]
    have hmul : c.virtual_sol_reserves * c.virtual_token_reserves < U128SIZE :=
      mul_lt_u128 h1 h2
    have hadd : c.virtual_sol_reserves + b < U128SIZE := by
      rw [U128SIZE_eq]; rw [U64SIZE_eq] at h1 hb64; omega
    rw [if_neg (by omega), if_pos ⟨hmul, hadd⟩]
    unfold castU64
    rw [Nat.mod_eq_of_lt (lt_of_le_of_lt (min_le_right _ _) h4)]

/-- Witness for C3 at the spec's scenario input. -/
theorem calculate_tokens_out_spec_witness :
    calculate_tokens_out curveStart 0 = Except.ok 0 ∧
    calculate_tokens_out curveStart 990000000 =
      Except.ok (min (curveStart.virtual_token_reserves -
        curveStart.virtual_sol_reserves * curveStart.virtual_token_reserves /
          (curveStart.virtual_sol_reserves + 990000000))
        curveStart.real_token_reserves) :=
  ⟨(calculate_tokens_out_spec curveStart 990000000 (by decide) (by decide)
      (by decide) (by decide)).1,
   (calculate_tokens_out_spec curveStart 990000000 (by decide) (by decide)
      (by decide) (by decide)).2 (by decide)⟩

end PumpFun

namespace PumpFun

/-- Claim C4: a successful buy charges exactly the floored basis-point fee,
deposits the net amount into both SOL reserves, withdraws the quoted token
amount from both token reserves, and adds it to the cumulative sold count. -/
theorem buy_fee_and_state_update {cfg : GlobalConfig} {c : BondingCurve}
    {g m : Nat} {r : BuyOutcome} (h : buy cfg c g m = Except.ok r) :
    r.platform_fee = g * cfg.platform_fee_bps / 10000 ∧
    calculate_tokens_out c (g - r.platform_fee) = Except.ok r.tokens_out ∧
    r.curve.virtual_sol_reserves = c.virtual_sol_reserves + (g - r.platform_fee) ∧
    r.curve.real_sol_reserves = c.real_sol_reserves + (g - r.platform_fee) ∧
    r.curve.virtual_token_reserves = c.virtual_token_reserves - r.tokens_out ∧
    r.curve.real_token_reserves = c.real_token_reserves - r.tokens_out ∧
    r.curve.tokens_sold = c.tokens_sold + r.tokens_out := by
  obtain ⟨-, -, -, -, -, hfee, -, hq, -, -, -, hvs, hvt, hrs, hrt, hsold, -, -,
    -, -, -, -, -⟩ := buy_ok_elim h
  exact ⟨hfee, hq, hvs, hrs, hvt, hrt, hsold⟩

/-- Witness for C4 at the spec's scenario trade. -/
theorem buy_fee_and_state_update_witness :
    buy cfgOnePct curveStart 1000000000 0 = Except.ok outcomeStart ∧
    outcomeStart.platform_fee = 1000000000 * cfgOnePct.platform_fee_bps / 10000 ∧
    outcomeStart.curve.tokens_sold = curveStart.tokens_sold + outcomeStart.tokens_out := by
  have hb : buy cfgOnePct curveStart 1000000000 0 = Except.ok outcomeStart := by
    decide
  refine ⟨hb, (buy_fee_and_state_update hb).1, ?_⟩
  exact (buy_fee_and_state_update hb).2.2.2.2.2.2

/-- Claim C5: any buy, sell or graduate call that returns an error leaves the
observable configuration and curve state exactly as they were before the
call. -/
theorem failed_transition_leaves_state :
    ∀ (cfg : GlobalConfig) (c : BondingCurve) (g m a ms : Nat) (now : Int)
      (e1 e2 e3 : PumpFunError),
    (buy cfg c g m = Except.error e1 → observeBuy cfg c g m = (cfg, c)) ∧
    (sell cfg c a ms = Except.error e2 → observeSell cfg c a ms = (cfg, c)) ∧
    (graduate cfg c now = Except.error e3 → observeGraduate cfg c now = c) := by
  intro cfg c g m a ms now e1 e2 e3
  refine ⟨fun h => ?_, fun h => ?_, fun h => ?_⟩
  · simp [observeBuy, h]
  · simp [observeSell, h]
  · simp [observeGraduate, h]

/-- Witness for C5: rejected calls on a paused protocol change nothing. -/
theorem failed_transition_leaves_state_witness :
    observeBuy cfgPaused curveStart 1000000 0 = (cfgPaused, curveStart) ∧
    observeSell cfgPaused curveStart 1000 0 = (cfgPaused, curveStart) ∧
    observeGraduate cfgPaused curveStart 0 = curveStart :=
  ⟨(failed_transition_leaves_state cfgPaused curveStart 1000000 0 1000 0 0
      PumpFunError.ProtocolPaused PumpFunError.ProtocolPaused
      PumpFunError.ProtocolPaused).1 (by decide),
   (failed_transition_leaves_state cfgPaused curveStart 1000000 0 1000 0 0
      PumpFunError.ProtocolPaused PumpFunError.ProtocolPaused
      PumpFunError.ProtocolPaused).2.1 (by decide),
   (failed_transition_leaves_state cfgPaused curveStart 1000000 0 1000 0 0
      PumpFunError.ProtocolPaused PumpFunError.ProtocolPaused
      PumpFunError.ProtocolPaused).2.2 (by decide)⟩

/-- Claim C8: on a graduated curve with zeroed real reserves, a further
graduate call fails with the already-graduated code and disburses nothing,
the observable state (reserves still zero) is unchanged, and no buy or sell
is permitted either — the graduated state is terminal. -/
theorem graduated_curve_terminal (cfg : GlobalConfig) (c : BondingCurve)
    (now : Int) (g m a ms : Nat)
    (hp : cfg.paused = false) (hg : c.graduated = true)
    (hrs : c.real_sol_reserves = 0) (hrt : c.real_token_reserves = 0) :
    graduate cfg c now = Except.error PumpFunError.AlreadyGraduated ∧
    observeGraduate cfg c now = c ∧
    (observeGraduate cfg c now).real_sol_reserves = 0 ∧
    (observeGraduate cfg c now).real_token_reserves = 0 ∧
    (MIN_TRADE_AMOUNT ≤ g → buy cfg c g m = Except.error PumpFunError.AlreadyGraduated) ∧
    (0 < a → sell cfg c a ms = Except.error PumpFunError.AlreadyGraduated) := by
  have h1 : graduate cfg c now = Except.error PumpFunError.AlreadyGraduated := by
    simp [graduate, hp, hg]
  refine ⟨h1, by simp [observeGraduate, h1], by simp [observeGraduate, h1, hrs],
    by simp [observeGraduate, h1, hrt], fun hge => ?_, fun ha => ?_⟩
  · simp [buy, hp, hg, Nat.not_lt.mpr hge]
  · simp [sell, hp, hg, Nat.pos_iff_ne_zero.mp ha]

/-- Witness for C8 on the terminal curve left by a graduation. -/
theorem graduated_curve_terminal_witness :
    graduate cfgOnePct curveDone 9 = Except.error PumpFunError.AlreadyGraduated ∧
    observeGraduate cfgOnePct curveDone 9 = curveDone ∧
    buy cfgOnePct curveDone 1000000 0 = Except.error PumpFunError.AlreadyGraduated ∧
    sell cfgOnePct curveDone 5 0 = Except.error PumpFunError.AlreadyGraduated := by
  have h := graduated_curve_terminal cfgOnePct curveDone 9 1000000 0 5 0
    (by decide) (by decide) (by decide) (by decide)
  exact ⟨h.1, h.2.1, h.2.2.2.2.1 (by decide), h.2.2.2.2.2 (by decide)⟩

end PumpFun

namespace PumpFun

/-- Claim C7: for an unpaused, non-graduated curve (with the split
multiplication in `u64` range), graduation succeeds exactly when the real SOL
reserve meets the 85-SOL threshold; on success it pays out the 85/10/5
percent split of the real SOL reserve, hands off the whole real token
reserve, marks the curve graduated with the supplied timestamp, and zeroes
both real reserves. -/
theorem graduate_threshold_spec (cfg : GlobalConfig) (c : BondingCurve)
    (now : Int) (hp : cfg.paused = false) (hg : c.graduated = false)
    (hm85 : c.real_sol_reserves * 85 < U64SIZE) :
    (GRADUATION_SOL_THRESHOLD ≤ c.real_sol_reserves →
      graduate cfg c now = Except.ok
        { curve :=
            { c with
              graduated := true
              graduated_at := now
              real_sol_reserves := 0
              real_token_reserves := 0 },
          liquidity_sol := c.real_sol_reserves * 85 / 100,
          creator_reward := c.real_sol_reserves * 10 / 100,
          platform_fee := c.real_sol_reserves * 5 / 100,
          liquidity_tokens := c.real_token_reserves }) ∧
    (c.real_sol_reserves < GRADUATION_SOL_THRESHOLD →
      graduate cfg c now = Except.error PumpFunError.NotReadyForGraduation) := by
  obtain ⟨hm10, hm5⟩ : c.real_sol_reserves * 10 < U64SIZE ∧
      c.real_sol_reserves * 5 < U64SIZE := by
    rw [U64SIZE_eq] at hm85 ⊢
    omega
  constructor
  · intro hth
    simp [graduate, hp, hg, hth, GRADUATION_LIQUIDITY_PERCENTAGE,
      CREATOR_GRADUATION_REWARD_PERCENTAGE, PLATFORM_GRADUATION_FEE_PERCENTAGE,
      checkedMul64, hm85, hm10, hm5, checkedDiv]
  · intro hlt
    have hnth : ¬ GRADUATION_SOL_THRESHOLD ≤ c.real_sol_reserves := by omega
    simp [graduate, hp, hg, hnth]

/-- Witness for C7: the threshold boundary, one lamport apart. -/
theorem graduate_threshold_spec_witness :
    graduate cfgOnePct curveAtThreshold 7 = Except.ok gradOutcome ∧
    graduate cfgOnePct curveBelowThreshold 7 =
      Except.error PumpFunError.NotReadyForGraduation := by
  have h1 := (graduate_threshold_spec cfgOnePct curveAtThreshold 7
    (by decide) (by decide) (by decide)).1 (by decide)
  have h2 := (graduate_threshold_spec cfgOnePct curveBelowThreshold 7
    (by decide) (by decide) (by decide)).2 (by decide)
  refine ⟨?_, h2⟩
  rw [h1]
  decide

/-- Claim C10: the trade-exceeds-reserves rejections are unreachable: the buy
quote is clamped to the real token reserve and the sell quote to the real SOL
reserve, so neither handler can ever return `TradeExceedsReserves`. -/
theorem trade_exceeds_reserves_unreachable (cfg : GlobalConfig)
    (c : BondingCurve) (g m a ms : Nat) :
    buy cfg c g m ≠ Except.error PumpFunError.TradeExceedsReserves ∧
    sell cfg c a ms ≠ Except.error PumpFunError.TradeExceedsReserves := by
  constructor
  · intro h
    unfold buy at h
    split at h
    · simp at h
    split at h
    · simp at h
    split at h
    · simp at h
    split at h
    · simp at h
    split at h
    · simp at h
    split at h
    · simp at h
    split at h
    · simp at h
    split at h
    · rename_i e hq
      rw [calculate_tokens_out_error hq] at h
      simp at h
    rename_i tout hq
    split at h
    · simp at h
    split at h
    · simp at h
    split at h
    · rename_i hres
      exact hres (calculate_tokens_out_le_real hq)
    split at h
    · simp at h
    split at h
    · simp at h
    split at h
    · simp at h
    split at h
    · simp at h
    split at h
    · simp at h
    split at h
    · simp at h
    simp at h
  · intro h
    unfold sell at h
    split at h
    · simp at h
    split at h
    · simp at h
    split at h
    · simp at h
    split at h
    · simp at h
    split at h
    · rename_i e hq
      rw [calculate_sol_out_error hq] at h
      simp at h
    rename_i sbf hq
    split at h
    · simp at h
    split at h
    · simp at h
    split at h
    · simp at h
    split at h
    · simp at h
    split at h
    · simp at h
    split at h
    · rename_i hres
      exact hres (calculate_sol_out_le_real hq)
    split at h
    · simp at h
    split at h
    · simp at h
    split at h
    · simp at h
    split at h
    · simp at h
    split at h
    · simp at h
    split at h
    · simp at h
    simp at h

end PumpFun

namespace PumpFun

/-- Claim C1 (amended): on a successful buy or sell whose quote was not
clamped (the constant-product formula amount did not exceed the real
reserve), the product of virtual reserves never increases, and stays equal
exactly when the integer division was exact; the clamped case is excluded
because there the product can grow (see the counterexample). -/
theorem product_nonincreasing_when_unclamped :
    (∀ (cfg : GlobalConfig) (c : BondingCurve) (g m : Nat) (r : BuyOutcome),
      c.WF → buy cfg c g m = Except.ok r →
      c.virtual_token_reserves -
          c.virtual_sol_reserves * c.virtual_token_reserves /
            (c.virtual_sol_reserves + (g - g * cfg.platform_fee_bps / 10000)) ≤
          c.real_token_reserves →
      r.curve.virtual_sol_reserves * r.curve.virtual_token_reserves ≤
          c.virtual_sol_reserves * c.virtual_token_reserves ∧
        (r.curve.virtual_sol_reserves * r.curve.virtual_token_reserves =
            c.virtual_sol_reserves * c.virtual_token_reserves ↔
          (c.virtual_sol_reserves + (g - g * cfg.platform_fee_bps / 10000)) ∣
            c.virtual_sol_reserves * c.virtual_token_reserves)) ∧
    (∀ (cfg : GlobalConfig) (c : BondingCurve) (a ms : Nat) (r : SellOutcome),
      c.WF → sell cfg c a ms = Except.ok r →
      c.virtual_sol_reserves -
          c.virtual_sol_reserves * c.virtual_token_reserves /
            (c.virtual_token_reserves + a) ≤ c.real_sol_reserves →
      r.curve.virtual_sol_reserves * r.curve.virtual_token_reserves ≤
          c.virtual_sol_reserves * c.virtual_token_reserves ∧
        (r.curve.virtual_sol_reserves * r.curve.virtual_token_reserves =
            c.virtual_sol_reserves * c.virtual_token_reserves ↔
          (c.virtual_token_reserves + a) ∣
            c.virtual_sol_reserves * c.virtual_token_reserves)) := by
  constructor
  · intro cfg c g m r hwf hb hunc
    obtain ⟨-, -, -, -, -, hfee, -, hq, htpos, -, -, hvs, hvt, -, -, -, -,
      hvslt, -, -, -, -, -⟩ := buy_ok_elim hb
    obtain ⟨h1, h2, h3, h4, h5⟩ := hwf
    rw [← hfee] at hunc
    rw [← hfee]
    have hnet0 : g - r.platform_fee ≠ 0 := by
      intro h0
      rw [h0, calculate_tokens_out_total] at hq
      simp at hq
      omega
    have hs64 : g - r.platform_fee < U64SIZE := by
      rw [hvs] at hvslt
      omega
    have hmul : c.virtual_sol_reserves * c.virtual_token_reserves < U128SIZE :=
      mul_lt_u128 h1 h2
    have hadd : c.virtual_sol_reserves + (g - r.platform_fee) < U128SIZE := by
      rw [U128SIZE_eq]
      rw [U64SIZE_eq] at h1 hs64
      omega
    rw [calculate_tokens_out_total, if_neg hnet0, if_pos ⟨hmul, hadd⟩] at hq
    injection hq with hq
    have htout : r.tokens_out = c.virtual_token_reserves -
        c.virtual_sol_reserves * c.virtual_token_reserves /
          (c.virtual_sol_reserves + (g - r.platform_fee)) := by
      rw [← hq]
      unfold castU64
      rw [Nat.mod_eq_of_lt (lt_of_le_of_lt (min_le_right _ _) h4)]
      exact min_eq_left hunc
    have hdle : c.virtual_sol_reserves * c.virtual_token_reserves /
        (c.virtual_sol_reserves + (g - r.platform_fee)) ≤
          c.virtual_token_reserves :=
      div_mul_le _ _ _ (Nat.le_add_right _ _)
    have hvt2 : r.curve.virtual_token_reserves =
        c.virtual_sol_reserves * c.virtual_token_reserves /
          (c.virtual_sol_reserves + (g - r.platform_fee)) := by
      rw [hvt, htout]
      exact Nat.sub_sub_self hdle
    rw [hvs, hvt2]
    have hdm := Nat.div_add_mod
      (c.virtual_sol_reserves * c.virtual_token_reserves)
      (c.virtual_sol_reserves + (g - r.platform_fee))
    have hpos : 0 < c.virtual_sol_reserves + (g - r.platform_fee) := by omega
    refine ⟨Nat.le.intro hdm, ?_, ?_⟩
    · intro he
      refine Nat.dvd_of_mod_eq_zero ?_
      have h0 := hdm
      rw [he] at h0
      exact Nat.add_left_cancel (h0.trans (Nat.add_zero _).symm)
    · intro hd
      have h0 : c.virtual_sol_reserves * c.virtual_token_reserves %
          (c.virtual_sol_reserves + (g - r.platform_fee)) = 0 :=
        Nat.mod_eq_zero_of_dvd hd
      rw [h0, Nat.add_zero] at hdm
      exact hdm
  · intro cfg c a ms r hwf hs hunc
    obtain ⟨-, hapos, -, -, hq, hsbfpos, -, -, -, -, -, -, -, -, hvs, hvt, -,
      -, -, -, hvtlt, -, -, -, -, -⟩ := sell_ok_elim hs
    obtain ⟨h1, h2, h3, h4, h5⟩ := hwf
    have ha0 : a ≠ 0 := by omega
    have ha64 : a < U64SIZE := by
      rw [hvt] at hvtlt
      omega
    have hmul : c.virtual_sol_reserves * c.virtual_token_reserves < U128SIZE :=
      mul_lt_u128 h1 h2
    have hadd : c.virtual_token_reserves + a < U128SIZE := by
      rw [U128SIZE_eq]
      rw [U64SIZE_eq] at h2 ha64
      omega
    rw [calculate_sol_out_total, if_neg ha0, if_pos ⟨hmul, hadd⟩] at hq
    injection hq with hq
    have hsbf : r.sol_out_before_fee = c.virtual_sol_reserves -
        c.virtual_sol_reserves * c.virtual_token_reserves /
          (c.virtual_token_reserves + a) := by
      rw [← hq]
      unfold castU64
      rw [Nat.mod_eq_of_lt (lt_of_le_of_lt (min_le_right _ _) h3)]
      exact min_eq_left hunc
    have hele : c.virtual_sol_reserves * c.virtual_token_reserves /
        (c.virtual_token_reserves + a) ≤ c.virtual_sol_reserves := by
      have hx := div_mul_le c.virtual_token_reserves c.virtual_sol_reserves
        (c.virtual_token_reserves + a) (Nat.le_add_right _ _)
      rw [Nat.mul_comm c.virtual_token_reserves c.virtual_sol_reserves] at hx
      exact hx
    have hvs2 : r.curve.virtual_sol_reserves =
        c.virtual_sol_reserves * c.virtual_token_reserves /
          (c.virtual_token_reserves + a) := by
      rw [hvs, hsbf]
      exact Nat.sub_sub_self hele
    rw [hvs2, hvt]
    have hdm := Nat.div_add_mod
      (c.virtual_sol_reserves * c.virtual_token_reserves)
      (c.virtual_token_reserves + a)
    have hpos : 0 < c.virtual_token_reserves + a := by omega
    rw [Nat.mul_comm (c.virtual_sol_reserves * c.virtual_token_reserves /
      (c.virtual_token_reserves + a)) (c.virtual_token_reserves + a)]
    refine ⟨Nat.le.intro hdm, ?_, ?_⟩
    · intro he
      refine Nat.dvd_of_mod_eq_zero ?_
      have h0 := hdm
      rw [he] at h0
      exact Nat.add_left_cancel (h0.trans (Nat.add_zero _).symm)
    · intro hd
      have h0 : c.virtual_sol_reserves * c.virtual_token_reserves %
          (c.virtual_token_reserves + a) = 0 :=
        Nat.mod_eq_zero_of_dvd hd
      rw [h0, Nat.add_zero] at hdm
      exact hdm

end PumpFun

namespace PumpFun

/-- Counterexample to C1 as stated: a successful buy whose quote is clamped
to the depleted real token reserve leaves the product of virtual reserves
strictly larger than before the trade. -/
theorem clamped_buy_increases_product :
    (buy cfgZeroFee curveClamp 1000000 0).isOk = true ∧
    curveClamp.virtual_sol_reserves * curveClamp.virtual_token_reserves <
      (observeBuy cfgZeroFee curveClamp 1000000 0).2.virtual_sol_reserves *
        (observeBuy cfgZeroFee curveClamp 1000000 0).2.virtual_token_reserves := by
  decide

/-- Witness for the amended C1 at the spec's scenario trade (no clamping). -/
theorem product_nonincreasing_when_unclamped_witness :
    outcomeStart.curve.virtual_sol_reserves *
        outcomeStart.curve.virtual_token_reserves ≤
      curveStart.virtual_sol_reserves * curveStart.virtual_token_reserves :=
  ((product_nonincreasing_when_unclamped.1 cfgOnePct curveStart 1000000000 0
    outcomeStart (by decide) (by decide) (by decide))).1

end PumpFun

namespace PumpFun

/-- Claim C9 (amended): the constant-product multiplications of the two
quote functions are carried out in a 128-bit intermediate, which can never
overflow for in-range 64-bit fields, so the quotes never fail arithmetically;
the checked fee and graduation-split multiplications, by contrast, are done
at 64-bit width, and the price / market-cap paths narrow their result with a
truncating cast (see the counterexample). -/
theorem quotes_wide_intermediates_never_fail :
    ∀ (c : BondingCurve) (s : Nat), c.WF → s < U64SIZE →
      (∃ t, calculate_tokens_out c s = Except.ok t) ∧
      (∃ u, calculate_sol_out c s = Except.ok u) := by
  intro c s hwf hs
  obtain ⟨h1, h2, h3, h4, h5⟩ := hwf
  have hmul : c.virtual_sol_reserves * c.virtual_token_reserves < U128SIZE :=
    mul_lt_u128 h1 h2
  constructor
  · rw [calculate_tokens_out_total]
    by_cases hs0 : s = 0
    · exact ⟨0, by simp [hs0]⟩
    · have hadd : c.virtual_sol_reserves + s < U128SIZE := by
        rw [U128SIZE_eq]
        rw [U64SIZE_eq] at h1 hs
        omega
      exact ⟨_, by rw [if_neg hs0, if_pos ⟨hmul, hadd⟩]⟩
  · rw [calculate_sol_out_total]
    by_cases hs0 : s = 0
    · exact ⟨0, by simp [hs0]⟩
    · have hadd : c.virtual_token_reserves + s < U128SIZE := by
        rw [U128SIZE_eq]
        rw [U64SIZE_eq] at h2 hs
        omega
      exact ⟨_, by rw [if_neg hs0, if_pos ⟨hmul, hadd⟩]⟩

/-- Witness for the amended C9 on the fresh default curve. -/
theorem quotes_wide_intermediates_never_fail_witness :
    (∃ t, calculate_tokens_out curveStart 990000000 = Except.ok t) ∧
    (∃ u, calculate_sol_out curveStart 990000000 = Except.ok u) :=
  quotes_wide_intermediates_never_fail curveStart 990000000 (by decide)
    (by decide)

/-- Counterexample to C9 as stated: `get_current_price` silently truncates
its 128-bit result through the `as u64` cast instead of failing (here all the
way to zero), and the buy fee multiplication is a same-width `u64` checked
multiply that aborts with `MathOverflow` on an input whose floored wide fee
would have been representable. -/
theorem price_cast_truncates_and_fee_mul_is_narrow :
    get_current_price curvePrice = 0 ∧
    curvePrice.virtual_sol_reserves * 1000000000 /
        curvePrice.virtual_token_reserves = 1152921504606846976000000000 ∧
    buy cfgOnePct curveStart 4611686018427387904 0 =
      Except.error PumpFunError.MathOverflow ∧
    4611686018427387904 * cfgOnePct.platform_fee_bps / 10000 < U64SIZE := by
  decide

end PumpFun

namespace PumpFun

/-- Claim C6: the buy guard chain.  Each rejection cause yields its own
distinct error code, in the source's checking order; and when no rejection
cause holds (and no checked-arithmetic step overflows) the buy succeeds. -/
theorem buy_guard_conditions :
    ∀ (cfg : GlobalConfig) (c : BondingCurve) (g m : Nat),
      (cfg.paused = true → buy cfg c g m = Except.error PumpFunError.ProtocolPaused) ∧
      (cfg.paused = false → g < MIN_TRADE_AMOUNT →
        buy cfg c g m = Except.error PumpFunError.TradeTooSmall) ∧
      (cfg.paused = false → MIN_TRADE_AMOUNT ≤ g → c.graduated = true →
        buy cfg c g m = Except.error PumpFunError.AlreadyGraduated) ∧
      (cfg.paused = false → MIN_TRADE_AMOUNT ≤ g → c.graduated = false →
        c.real_token_reserves = 0 →
        buy cfg c g m = Except.error PumpFunError.NoLiquidity) ∧
      (∀ q, cfg.paused = false → MIN_TRADE_AMOUNT ≤ g → c.graduated = false →
        0 < c.real_token_reserves → g * cfg.platform_fee_bps < U64SIZE →
        g * cfg.platform_fee_bps / 10000 ≤ g →
        calculate_tokens_out c (g - g * cfg.platform_fee_bps / 10000) =
          Except.ok q →
        (q = 0 → buy cfg c g m = Except.error PumpFunError.ZeroAmount) ∧
        (0 < q → q < m →
          buy cfg c g m = Except.error PumpFunError.SlippageExceeded) ∧
        (0 < q → m ≤ q → c.real_token_reserves < q →
          buy cfg c g m = Except.error PumpFunError.TradeExceedsReserves) ∧
        (0 < q → m ≤ q → q ≤ c.real_token_reserves →
          c.virtual_sol_reserves + (g - g * cfg.platform_fee_bps / 10000) <
            U64SIZE →
          c.real_sol_reserves + (g - g * cfg.platform_fee_bps / 10000) <
            U64SIZE →
          c.tokens_sold + q < U64SIZE →
          cfg.total_volume_sol + g < U64SIZE →
          ∃ r, buy cfg c g m = Except.ok r)) := by
  intro cfg c g m
  refine ⟨fun hp => ?_, fun hp hlt => ?_, fun hp hge hgr => ?_,
    fun hp hge hgr hz => ?_, fun q hp hge hgr hrt hmul hfle hq => ?_⟩
  · simp [buy, hp]
  · simp [buy, hp, hlt]
  · simp [buy, hp, Nat.not_lt.mpr hge, hgr]
  · simp [buy, hp, Nat.not_lt.mpr hge, hgr, hz]
  · have hrt0 : c.real_token_reserves ≠ 0 := by omega
    have hqvt : q ≤ c.virtual_token_reserves := by
      by_cases hn : g - g * cfg.platform_fee_bps / 10000 = 0
      · rw [hn, calculate_tokens_out_total] at hq
        simp at hq
        omega
      · have hf := calculate_tokens_out_le_formula hn hq
        exact le_trans hf (Nat.sub_le _ _)
    refine ⟨fun hq0 => ?_, fun hq0 hslip => ?_, fun hq0 hmle hql => ?_,
      fun hq0 hmle hqle hb1 hb2 hb3 hb4 => ?_⟩
    · subst hq0
      simp [buy, hp, Nat.not_lt.mpr hge, hgr, hrt0, checkedMul64, hmul,
        checkedDiv, checkedSub, hfle, hq]
    · simp [buy, hp, Nat.not_lt.mpr hge, hgr, hrt0, checkedMul64, hmul,
        checkedDiv, checkedSub, hfle, hq, Nat.pos_iff_ne_zero.mp hq0, hslip]
    · simp [buy, hp, Nat.not_lt.mpr hge, hgr, hrt0, checkedMul64, hmul,
        checkedDiv, checkedSub, hfle, hq, Nat.pos_iff_ne_zero.mp hq0,
        Nat.not_lt.mpr hmle, Nat.not_le.mpr hql]
    · simp [buy, hp, Nat.not_lt.mpr hge, hgr, hrt0, checkedMul64, hmul,
        checkedDiv, checkedSub, hfle, hq, Nat.pos_iff_ne_zero.mp hq0,
        Nat.not_lt.mpr hmle, hqle, checkedAdd64, hb1, hb2, hb3, hb4, hqvt]

end PumpFun

namespace PumpFun

/-- Witness for C6: every satisfiable guard conjunct exercised at a concrete
input, plus a concrete successful buy. -/
theorem buy_guard_conditions_witness :
    buy cfgPaused curveStart 1000000 0 =
      Except.error PumpFunError.ProtocolPaused ∧
    buy cfgOnePct curveStart 999999 0 =
      Except.error PumpFunError.TradeTooSmall ∧
    buy cfgOnePct curveDone 1000000 0 =
      Except.error PumpFunError.AlreadyGraduated ∧
    buy cfgOnePct curveEmpty 1000000 0 =
      Except.error PumpFunError.NoLiquidity ∧
    buy cfgOnePct curveZeroQuote 1000000 0 =
      Except.error PumpFunError.ZeroAmount ∧
    buy cfgOnePct curveStart 1000000000 1000000000000000 =
      Except.error PumpFunError.SlippageExceeded ∧
    (∃ r, buy cfgOnePct curveStart 1000000000 0 = Except.ok r) := by
  refine ⟨(buy_guard_conditions cfgPaused curveStart 1000000 0).1 (by decide),
    (buy_guard_conditions cfgOnePct curveStart 999999 0).2.1 (by decide)
      (by decide),
    (buy_guard_conditions cfgOnePct curveDone 1000000 0).2.2.1 (by decide)
      (by decide) (by decide),
    (buy_guard_conditions cfgOnePct curveEmpty 1000000 0).2.2.2.1 (by decide)
      (by decide) (by decide) (by decide),
    ((buy_guard_conditions cfgOnePct curveZeroQuote 1000000 0).2.2.2.2 0
      (by decide) (by decide) (by decide) (by decide) (by decide) (by decide)
      (by decide)).1 (by decide),
    ((buy_guard_conditions cfgOnePct curveStart 1000000000
        1000000000000000).2.2.2.2 34277831558568 (by decide) (by decide)
      (by decide) (by decide) (by decide) (by decide) (by decide)).2.1
      (by decide) (by decide),
    ((buy_guard_conditions cfgOnePct curveStart 1000000000 0).2.2.2.2
        34277831558568 (by decide) (by decide) (by decide) (by decide)
      (by decide) (by decide) (by decide)).2.2.2 (by decide) (by decide)
      (by decide) (by decide) (by decide) (by decide) (by decide)⟩

end PumpFun

namespace PumpFun

/-- Arithmetic core of the round-trip bound: buying moves the virtual pool to
`(vsol + net, vtok - t)` with `t` at most the formula amount, and selling `t`
straight back quotes at most `vsol + net` minus the floored back-projection;
the two floors together can hand back at most one extra price unit
`(vsol + net) / vtok` plus one. -/
theorem roundtrip_core (vsol vtok net t sbf : Nat) (hnet : 0 < net)
    (hvt : 0 < vtok)
    (ht : t ≤ vtok - vsol * vtok / (vsol + net))
    (hsbf : sbf ≤ (vsol + net) - (vsol + net) * (vtok - t) / vtok) :
    sbf ≤ net + (vsol + net) / vtok + 1 := by
  have hdm1 := Nat.div_add_mod (vsol * vtok) (vsol + net)
  have hm1lt : vsol * vtok % (vsol + net) < vsol + net := Nat.mod_lt _ (by omega)
  have hd_le_vt : vsol * vtok / (vsol + net) ≤ vtok :=
    div_mul_le _ _ _ (Nat.le_add_right _ _)
  have h1 : t + vsol * vtok / (vsol + net) ≤ vtok :=
    Nat.add_le_of_le_sub hd_le_vt ht
  have hDle : vsol * vtok / (vsol + net) ≤ vtok - t :=
    Nat.le_sub_of_add_le (by rw [Nat.add_comm]; exact h1)
  have hk1 : (vsol + net) * (vsol * vtok / (vsol + net)) ≤
      (vsol + net) * (vtok - t) := mul_le_mul_left' hDle _
  have hdm2 := Nat.div_add_mod ((vsol + net) * (vtok - t)) vtok
  have hm2lt : (vsol + net) * (vtok - t) % vtok < vtok := Nat.mod_lt _ hvt
  have hE_le : (vsol + net) * (vtok - t) / vtok ≤ vsol + net := by
    have hmle : (vsol + net) * (vtok - t) ≤ (vsol + net) * vtok :=
      mul_le_mul_left' (Nat.sub_le _ _) _
    have h2 : (vsol + net) * (vtok - t) / vtok ≤ (vsol + net) * vtok / vtok :=
      Nat.div_le_div_right hmle
    have h3 : (vsol + net) * vtok / vtok = vsol + net := by
      rw [Nat.mul_comm (vsol + net) vtok]
      exact Nat.mul_div_cancel_left _ hvt
    rw [h3] at h2
    exact h2
  have hstep : vtok * sbf ≤
      vtok * ((vsol + net) - (vsol + net) * (vtok - t) / vtok) :=
    mul_le_mul_left' hsbf _
  have hsplit : vtok * ((vsol + net) - (vsol + net) * (vtok - t) / vtok) +
      vtok * ((vsol + net) * (vtok - t) / vtok) = vtok * (vsol + net) := by
    rw [← Nat.mul_add, Nat.sub_add_cancel hE_le]
  have hexp : vtok * (vsol + net) = vtok * vsol + vtok * net :=
    Nat.mul_add vtok vsol net
  have hcomm : vtok * vsol = vsol * vtok := Nat.mul_comm vtok vsol
  have hdm3 := Nat.div_add_mod (vsol + net) vtok
  have hm3lt : (vsol + net) % vtok < vtok := Nat.mod_lt _ hvt
  by_contra hcon
  push_neg at hcon
  have hbig : vtok * (net + (vsol + net) / vtok + 2) ≤ vtok * sbf :=
    mul_le_mul_left' (by omega) vtok
  have hbexp : vtok * (net + (vsol + net) / vtok + 2) =
      vtok * net + vtok * ((vsol + net) / vtok) + vtok * 2 := by
    rw [Nat.mul_add, Nat.mul_add]
  rw [hbexp] at hbig
  obtain ⟨D, hD⟩ : ∃ x, vsol * vtok / (vsol + net) = x := ⟨_, rfl⟩
  obtain ⟨E, hE⟩ : ∃ x, (vsol + net) * (vtok - t) / vtok = x := ⟨_, rfl⟩
  obtain ⟨P, hP⟩ : ∃ x, (vsol + net) / vtok = x := ⟨_, rfl⟩
  obtain ⟨M1, hM1⟩ : ∃ x, vsol * vtok % (vsol + net) = x := ⟨_, rfl⟩
  obtain ⟨M2, hM2⟩ : ∃ x, (vsol + net) * (vtok - t) % vtok = x := ⟨_, rfl⟩
  obtain ⟨M3, hM3⟩ : ∃ x, (vsol + net) % vtok = x := ⟨_, rfl⟩
  rw [hD, hM1] at hdm1
  rw [hM1] at hm1lt
  rw [hD] at hk1
  rw [hE, hM2] at hdm2
  rw [hM2] at hm2lt
  rw [hE] at hstep hsplit
  rw [hP, hM3] at hdm3
  rw [hM3] at hm3lt
  rw [hP] at hbig
  obtain ⟨S1, hS1⟩ : ∃ x, vtok * sbf = x := ⟨_, rfl⟩
  obtain ⟨S2, hS2⟩ : ∃ x, vtok * ((vsol + net) - E) = x := ⟨_, rfl⟩
  obtain ⟨S3, hS3⟩ : ∃ x, vtok * E = x := ⟨_, rfl⟩
  obtain ⟨S4, hS4⟩ : ∃ x, vtok * (vsol + net) = x := ⟨_, rfl⟩
  obtain ⟨S5, hS5⟩ : ∃ x, vtok * vsol = x := ⟨_, rfl⟩
  obtain ⟨S6, hS6⟩ : ∃ x, vtok * net = x := ⟨_, rfl⟩
  obtain ⟨S7, hS7⟩ : ∃ x, vsol * vtok = x := ⟨_, rfl⟩
  obtain ⟨S8, hS8⟩ : ∃ x, (vsol + net) * D = x := ⟨_, rfl⟩
  obtain ⟨S9, hS9⟩ : ∃ x, (vsol + net) * (vtok - t) = x := ⟨_, rfl⟩
  obtain ⟨S10, hS10⟩ : ∃ x, vtok * P = x := ⟨_, rfl⟩
  rw [hS1, hS2] at hstep
  rw [hS2, hS3, hS4] at hsplit
  rw [hS4, hS5, hS6] at hexp
  rw [hS5, hS7] at hcomm
  rw [hS8, hS7] at hdm1
  rw [hS8, hS9] at hk1
  rw [hS3, hS9] at hdm2
  rw [hS10] at hdm3
  rw [hS6, hS10, hS1] at hbig
  omega

end PumpFun

namespace PumpFun

/-- Claim C2 (amended): a buy of gross `g` followed immediately by selling
the entire token amount the buy returned pays out at most `g` plus one
post-buy price unit plus one — the round trip can exceed the input by a
rounding unit of the price (see the counterexample), but never by more. -/
theorem roundtrip_payout_bound :
    ∀ (cfg : GlobalConfig) (c : BondingCurve) (g m1 m2 : Nat)
      (r1 : BuyOutcome) (r2 : SellOutcome),
      buy cfg c g m1 = Except.ok r1 →
      sell r1.config r1.curve r1.tokens_out m2 = Except.ok r2 →
      r2.sol_out ≤
        g + r1.curve.virtual_sol_reserves / c.virtual_token_reserves + 1 := by
  intro cfg c g m1 m2 r1 r2 hb hs
  obtain ⟨-, -, -, -, -, -, hfle, hq1, htpos, -, -, hvs1, hvt1, -, -, -, -, -,
    -, -, -, -, -⟩ := buy_ok_elim hb
  obtain ⟨-, -, -, -, hq2, -, -, -, -, hso, -, -, -, -, -, -, -, -, -, -, -,
    -, -, -, -, -⟩ := sell_ok_elim hs
  have hnet0 : g - r1.platform_fee ≠ 0 := by
    intro h0
    rw [h0, calculate_tokens_out_total] at hq1
    simp at hq1
    omega
  have ht := calculate_tokens_out_le_formula hnet0 hq1
  have htle : r1.tokens_out ≤ c.virtual_token_reserves :=
    le_trans ht (Nat.sub_le _ _)
  have hvtpos : 0 < c.virtual_token_reserves := by omega
  have ht0 : r1.tokens_out ≠ 0 := by omega
  have hsbf := calculate_sol_out_le_formula ht0 hq2
  rw [hvs1, hvt1] at hsbf
  rw [Nat.sub_add_cancel htle] at hsbf
  have hcore := roundtrip_core c.virtual_sol_reserves c.virtual_token_reserves
    (g - r1.platform_fee) r1.tokens_out r2.sol_out_before_fee
    (by omega) hvtpos ht hsbf
  have hpayle : r2.sol_out ≤ r2.sol_out_before_fee := by
    rw [hso]
    exact Nat.sub_le _ _
  rw [hvs1]
  omega

/-- Counterexample to C2 as stated: with a zero fee, buying ten million
lamports into a balanced pool and selling the proceeds straight back pays
out ten million and one lamports — one more than was put in. -/
theorem roundtrip_payout_can_exceed_input :
    buy cfgZeroFee curveRound 10000000 0 = Except.ok outRound1 ∧
    sell outRound1.config outRound1.curve outRound1.tokens_out 0 =
      Except.ok outRound2 ∧
    10000000 < outRound2.sol_out := by
  decide

/-- Witness for the amended C2 on the counterexample round trip. -/
theorem roundtrip_payout_bound_witness :
    outRound2.sol_out ≤
      10000000 + outRound1.curve.virtual_sol_reserves /
        curveRound.virtual_token_reserves + 1 :=
  roundtrip_payout_bound cfgZeroFee curveRound 10000000 0 0 outRound1 outRound2
    (by decide) (by decide)

end PumpFun
